import Mathlib

/-!
Verification of the batyr synchronization engine.

A shallow embedding of the worker / pull algorithm of the batyr
geodata synchronization service (`src/server/worker.cpp`) together
with proofs about the claims of its specification.

The embedding follows the C++ source closely:

* `Worker::pull` is modelled by `Batyr.pull` (split into the stages
  `pullWithSource`, `pullInTransaction` and `pullReconcile` matching
  the blocks of the C++ function).  External collaborators (the OGR
  driver and the PostgreSQL connection) are modelled as explicit
  input records (`DatasetModel`, `DbModel`); every SQL statement and
  source-driver call performed by the code is recorded in an event
  trace, and every mutation of the job record is recorded in a
  mutation trace.
* The generated SQL statements are built character for character as
  in the source.
* The denotation of the generated `UPDATE ... FROM` statement under
  PostgreSQL semantics (NULL-safe `is [not] distinct from`
  comparisons) is given by `updateStep`, operating on tables of rows.
* The exception dispatch of `Worker::run` is modelled by `runCatch`.
-/

namespace Batyr

/-- Job status as in `job.h` (QUEUED, IN_PROCESS, FINISHED, FAILED). -/
inductive Status
  | QUEUED
  | IN_PROCESS
  | FINISHED
  | FAILED
deriving DecidableEq, Repr

/-- The per-job statistics record {pulled, created, updated, deleted}. -/
structure Statistics where
  pulled : Nat
  created : Nat
  updated : Nat
  deleted : Nat
deriving DecidableEq, Repr

/-- Observable state of a job record: status, message and statistics. -/
structure JobState where
  status : Status
  message : String
  stats : Statistics
deriving DecidableEq, Repr

/-- A single mutation of the job record performed by the worker
(`job->setStatus`, `job->setMessage`, `job->setStatistics`). -/
inductive JobMutation
  | setStatus (s : Status)
  | setMessage (m : String)
  | setStatistics (pulled created updated deleted : Nat)
deriving DecidableEq, Repr

/-- Apply one job mutation to a job state. -/
def applyMutation (st : JobState) : JobMutation → JobState
  | .setStatus s => { st with status := s }
  | .setMessage m => { st with message := m }
  | .setStatistics p c u d => { st with stats := ⟨p, c, u, d⟩ }

/-- All states of the job record an observer can see while a mutation
list is applied in order: the initial state and the state after each
mutation. -/
def observableStates (st : JobState) : List JobMutation → List JobState
  | [] => [st]
  | m :: ms => st :: observableStates (applyMutation st m) ms

/-- The state of the job record after all mutations were applied. -/
def finalState (st : JobState) (ms : List JobMutation) : JobState :=
  ms.foldl applyMutation st

/-- OGR field types relevant to the pull algorithm.  `other` carries
the numeric tag of any unsupported `OGRFieldType` value. -/
inductive OGRFieldType
  | OFTString
  | OFTInteger
  | OFTReal
  | other (tag : Int)
deriving DecidableEq, Repr

/-- The `OgrField` struct of `worker.cpp`: name, zero-based index in
the source record and field type.  The C++ code never assigns the
`name` member (it stays default constructed), which the embedding
reproduces. -/
structure OgrField where
  name : String
  index : Nat
  type : OGRFieldType
deriving DecidableEq, Repr

/-- A column of the target table as returned by
`transaction->getTableFields`: column name, PostgreSQL type name and
primary-key flag. -/
structure TableField where
  name : String
  pgTypeName : String
  isPrimaryKey : Bool
deriving DecidableEq, Repr

/-- Outcome of the three fallible steps of geometry encoding for one
feature: `CPLMalloc` returning null, `exportToWkb` failing,
`CPLBinaryToHex` returning null, or success with the hex string. -/
inductive GeomEncodeResult
  | mallocFail
  | exportFail
  | hexFail
  | ok (hex : String)
deriving DecidableEq, Repr

/-- A source feature: the geometry-encoding outcome and the field
accessors `GetFieldAsString` / `GetFieldAsInteger` /
`GetFieldAsDouble` (doubles are modelled by their exact rational
values). -/
structure OgrFeature where
  geom : GeomEncodeResult
  fieldString : Nat → String
  fieldInt : Nat → Int
  fieldReal : Nat → Rat

/-- The source layer as seen through the OGR driver: geometry field
count, the field definitions in declaration order (cased name and
type), the outcome of `SetAttributeFilter` (`some lastErr` when the
driver rejects the filter, where `lastErr` models the
`CPLGetLastErrorMsg` pointer), and the feature stream. -/
structure OgrLayerModel where
  geomFieldCount : Nat
  fieldDefns : List (String × OGRFieldType)
  filterError : Option (Option String)
  features : List OgrFeature

/-- A dataset opened by the OGR driver: whether `GetLayerByName`
finds the requested source layer, and the layer itself. -/
structure DatasetModel where
  layerFound : Bool
  layer : OgrLayerModel

/-- The database connection model: whether `db.getTransaction`
succeeds, the columns reported by `getTableFields`, and the
`PQcmdTuples` affected-row count the database reports for each
executed statement. -/
structure DbModel where
  canBegin : Bool
  tableFields : List TableField
  execTuples : String → Nat

/-- Layer configuration (immutable, from the config file). -/
structure Layer where
  name : String
  source : String
  source_layer : String
  target_table_schema : String
  target_table_name : String
deriving DecidableEq, Repr

/-- The job parameters the pull algorithm reads: id, layer name and
the optional attribute filter (empty string when absent). -/
structure JobInput where
  id : String
  layerName : String
  filter : String
deriving DecidableEq, Repr

/-- One observable interaction with an external collaborator: source
driver calls and SQL-level database calls, in program order. -/
inductive Event
  | resetReading
  | setAttributeFilter (filter : String)
  | getNextFeature (ordinal : Nat)
  | beginTxn
  | createTempTable (schema table tempName : String)
  | getTableFields (schema table : String)
  | prepare (stmtName stmt : String) (nParams : Nat)
  | execPrepared (stmtName : String) (values : List String)
  | exec (stmt : String)
deriving DecidableEq, Repr

/-- Whether an event is a database interaction. -/
def Event.isDbWork : Event → Bool
  | .beginTxn => true
  | .createTempTable _ _ _ => true
  | .getTableFields _ _ => true
  | .prepare _ _ _ => true
  | .execPrepared _ _ => true
  | .exec _ => true
  | _ => false

/-- Whether an event reads a feature from the source. -/
def Event.isFeatureRead : Event → Bool
  | .getNextFeature _ => true
  | _ => false

/-- Whether an event applies an attribute filter to the source. -/
def Event.isSetFilter : Event → Bool
  | .setAttributeFilter _ => true
  | _ => false

deriving instance DecidableEq for Except

/-- Result of a run of the pull algorithm: the control-flow outcome
(`Except.error` models a thrown `WorkerError` with its message), the
trace of external interactions, and the trace of job mutations
performed inside `pull` itself. -/
structure PullOutcome where
  result : Except String Unit
  events : List Event
  muts : List JobMutation
deriving DecidableEq, Repr

/-- Modelled from the spec: `StringUtils::join` (declared in
`common/stringutils.h`, not part of the sources at hand) joins a list
of strings with a separator between consecutive elements
("join a list of quoted identifiers with a separator"). -/
def joinStr (parts : List String) (sep : String) : String :=
  String.intercalate sep parts

/-- Lookup of a target-table column by name; a missing name yields a
default-constructed `TableField` exactly like `std::map::operator[]`. -/
def getTableField (fields : List TableField) (c : String) : TableField :=
  (fields.find? (fun f => f.name == c)).getD ⟨"", "", false⟩

/-- Lookup of a source field by (lower-cased) name; a missing name
yields a default-constructed `OgrField` like `std::map::operator[]`. -/
def getOgrField (ogrFields : List (String × OgrField)) (c : String) : OgrField :=
  (ogrFields.lookup c).getD ⟨"", 0, .OFTInteger⟩

/-- The C `tolower` applied to one character (C locale): upper-case
ASCII letters are shifted to lower case, all else is unchanged. -/
def asciiToLower (c : Char) : Char :=
  if 'A' ≤ c && c ≤ 'Z' then Char.ofNat (c.toNat + 32) else c

/-- Lower-casing of a field name via `std::transform` with
`::tolower` (`worker.cpp` line 112). -/
def lowerStr (s : String) : String :=
  String.mk (s.data.map asciiToLower)

/-- Insert-or-replace into the association list modelling the
`std::map<std::string, OgrField>` of collected source columns. -/
def mapUpsert (m : List (String × OgrField)) (k : String) (f : OgrField) :
    List (String × OgrField) :=
  match m with
  | [] => [(k, f)]
  | (k', v) :: rest =>
    if k' = k then (k, f) :: rest else (k', v) :: mapUpsert rest k f

/-- Walk the source field definitions, recording for each the
zero-based index and type under the lower-cased name
(`worker.cpp` lines 104-123). -/
def collectOgrFieldsAux (acc : List (String × OgrField)) (i : Nat) :
    List (String × OGRFieldType) → List (String × OgrField)
  | [] => acc
  | (nm, ty) :: rest =>
    collectOgrFieldsAux (mapUpsert acc (lowerStr nm) ⟨"", i, ty⟩) (i + 1) rest

/-- The `ogrFields` map collected from the source layer schema. -/
def collectOgrFields (defns : List (String × OGRFieldType)) :
    List (String × OgrField) :=
  collectOgrFieldsAux [] 0 defns

/-- Render a natural number below `10^6` as exactly six decimal
digits, zero padded: the fractional part of C `printf("%f")`. -/
def pad6 (n : Nat) : String :=
  String.mk [Nat.digitChar (n / 100000 % 10), Nat.digitChar (n / 10000 % 10),
             Nat.digitChar (n / 1000 % 10), Nat.digitChar (n / 100 % 10),
             Nat.digitChar (n / 10 % 10), Nat.digitChar (n % 10)]

/-- Round a rational to the nearest integer, ties to even (the
default FE_TONEAREST behaviour of the C library conversion; no double
value scaled by `10^6` ever produces an exact tie, so the tie rule is
immaterial for values a double can hold). -/
def roundHalfEven (q : Rat) : Int :=
  if q - (⌊q⌋ : Rat) < 1/2 then ⌊q⌋
  else if (1:Rat)/2 < q - (⌊q⌋ : Rat) then ⌊q⌋ + 1
  else if ⌊q⌋ % 2 = 0 then ⌊q⌋ else ⌊q⌋ + 1

/-- Fixed-point rendering with six fractional digits of a
non-negative rational: `sprintf("%f", x)` on the exact value. -/
def cppToString6Abs (q : Rat) : String :=
  let n : Int := roundHalfEven (q * 1000000)
  toString (n / 1000000) ++ "." ++ pad6 ((n % 1000000).toNat)

/-- The rendering performed by `std::to_string(double)`
(`worker.cpp` line 241): `sprintf("%f", value)`, i.e. fixed-point
with exactly six fractional digits, applied to the double's exact
rational value. -/
def cppToString6 (q : Rat) : String :=
  if q < 0 then "-" ++ cppToString6Abs (-q) else cppToString6Abs q

/-- Geometry encoding of one feature (`worker.cpp` lines 207-229):
allocate a WKB buffer, export little-endian WKB, convert to hex.
`numPulled` is the ordinal of the feature being processed. -/
def encodeGeometry (g : GeomEncodeResult) (numPulled : Nat) :
    Except String String :=
  match g with
  | .mallocFail => .error "Unable to allocate memory to export geometry"
  | .exportFail =>
    .error ("Could not export the geometry from feature #" ++ toString numPulled)
  | .hexFail => .error "Unable to allocate memory to convert geometry to hex"
  | .ok hex => .ok hex

/-- Build the positional parameter vector for one feature
(`worker.cpp` lines 202-248): per insert column either the hex WKB of
the geometry or the value formatted by the source field's type;
unsupported types abort with their numeric tag. -/
def featureValues (ogrFields : List (String × OgrField))
    (fields : List TableField) (f : OgrFeature) (numPulled : Nat) :
    List String → Except String (List String)
  | [] => .ok []
  | c :: cs =>
    if (getTableField fields c).pgTypeName = "geometry" then
      match encodeGeometry f.geom numPulled with
      | .error e => .error e
      | .ok hex =>
        match featureValues ogrFields fields f numPulled cs with
        | .error e => .error e
        | .ok rest => .ok (hex :: rest)
    else
      let og := getOgrField ogrFields c
      match og.type with
      | .OFTString =>
        match featureValues ogrFields fields f numPulled cs with
        | .error e => .error e
        | .ok rest => .ok (f.fieldString og.index :: rest)
      | .OFTInteger =>
        match featureValues ogrFields fields f numPulled cs with
        | .error e => .error e
        | .ok rest => .ok (toString (f.fieldInt og.index) :: rest)
      | .OFTReal =>
        match featureValues ogrFields fields f numPulled cs with
        | .error e => .error e
        | .ok rest => .ok (cppToString6 (f.fieldReal og.index) :: rest)
      | .other tag => .error ("Unsupported OGR field type: " ++ toString tag)

/-- The feature streaming loop (`worker.cpp` lines 200-263): read
each feature, build its values, execute the prepared insert, count
pulled features.  Returns the emitted events, the final pulled count
and the error of a thrown `WorkerError`, if any. -/
def streamFeatures (ogrFields : List (String × OgrField))
    (fields : List TableField) (insertColumns : List String)
    (stmtName : String) (numPulled : Nat) :
    List OgrFeature → List Event × Nat × Option String
  | [] => ([], numPulled, none)
  | f :: rest =>
    match featureValues ogrFields fields f numPulled insertColumns with
    | .error e => ([Event.getNextFeature numPulled], numPulled, some e)
    | .ok vals =>
      let r := streamFeatures ogrFields fields insertColumns stmtName
        (numPulled + 1) rest
      (Event.getNextFeature numPulled :: Event.execPrepared stmtName vals :: r.1,
       r.2.1, r.2.2)

/-- Partition the target-table columns (`worker.cpp` lines 144-165):
primary-key columns, update (non-primary-key) columns, the geometry
column (more than one is an error) and the insert columns (geometry
plus every column whose name is found among the source fields). -/
def partitionFieldsAux (layerName : String)
    (ogrFields : List (String × OgrField))
    (pk upd : List String) (geomCol : String) (ins : List String) :
    List TableField →
    Except String (List String × List String × String × List String)
  | [] => .ok (pk, upd, geomCol, ins)
  | f :: rest =>
    let pk' := if f.isPrimaryKey then pk ++ [f.name] else pk
    let upd' := if f.isPrimaryKey then upd else upd ++ [f.name]
    if f.pgTypeName = "geometry" then
      if geomCol ≠ "" then
        .error ("Layer \"" ++ layerName ++
          "\" has multiple geometry columns. Currently only one is supported")
      else
        let ins' := ins ++ [f.name]
        let ins'' := if (ogrFields.lookup f.name).isSome then ins' ++ [f.name] else ins'
        partitionFieldsAux layerName ogrFields pk' upd' f.name ins'' rest
    else
      let ins' := if (ogrFields.lookup f.name).isSome then ins ++ [f.name] else ins
      partitionFieldsAux layerName ogrFields pk' upd' geomCol ins' rest

/-- Entry point of the column partition with empty accumulators. -/
def partitionFields (layerName : String)
    (ogrFields : List (String × OgrField)) (fields : List TableField) :
    Except String (List String × List String × String × List String) :=
  partitionFieldsAux layerName ogrFields [] [] "" [] fields

/-- The parameterized insert statement into the scratch table
(`worker.cpp` lines 181-195): one `$i::pgtype` placeholder per insert
column. -/
def buildTempInsertStmt (tempTableName : String)
    (insertColumns : List String) (fields : List TableField) : String :=
  let insertQueryValues := insertColumns.enum.map
    (fun p => "$" ++ toString (p.1 + 1) ++ "::" ++ (getTableField fields p.2).pgTypeName)
  "insert into \"" ++ tempTableName ++ "\" (\"" ++
    joinStr insertColumns "\", \"" ++ "\") values (" ++
    joinStr insertQueryValues ", " ++ ")"

/-- The differential UPDATE statement (`worker.cpp` lines 268-296):
SET every update column from the scratch table, match on all
primary-key columns with `is not distinct from`, restrict to rows
that differ on at least one update column with `is distinct from`. -/
def buildUpdateStmt (schema table temp : String)
    (pk upd : List String) : String :=
  "update \"" ++ schema ++ "\".\"" ++ table ++ "\" " ++ " set " ++
  joinStr (upd.map (fun c =>
    "\"" ++ c ++ "\" = \"" ++ temp ++ "\".\"" ++ c ++ "\" ")) ", " ++
  " from \"" ++ temp ++ "\"" ++ " where (" ++
  joinStr (pk.map (fun c =>
    "\"" ++ table ++ "\".\"" ++ c ++ "\" is not distinct from \"" ++
    temp ++ "\".\"" ++ c ++ "\"")) " and " ++
  ") and (" ++
  joinStr (upd.map (fun c =>
    "(\"" ++ table ++ "\".\"" ++ c ++ "\" is distinct from  \"" ++
    temp ++ "\".\"" ++ c ++ "\")")) " or " ++
  ")"

/-- The INSERT-MISSING statement (`worker.cpp` lines 302-310). -/
def buildInsertMissingStmt (schema table temp : String)
    (pk ins : List String) : String :=
  "insert into \"" ++ schema ++ "\".\"" ++ table ++ "\" " ++
  " ( \"" ++ joinStr ins "\", \"" ++ "\") " ++
  " select \"" ++ joinStr ins "\", \"" ++ "\" " ++
  " from \"" ++ temp ++ "\"" ++
  " where (\"" ++ joinStr pk "\", \"" ++ "\") not in (" ++
  " select \"" ++ joinStr pk "\",\"" ++ "\" " ++
  "       from \"" ++ schema ++ "\".\"" ++ table ++ "\"" ++ ")"

/-- The DELETE-REMOVED statement (`worker.cpp` lines 317-322). -/
def buildDeleteRemovedStmt (schema table temp : String)
    (pk : List String) : String :=
  "delete from \"" ++ schema ++ "\".\"" ++ table ++ "\" " ++
  " where (\"" ++ joinStr pk "\", \"" ++ "\") not in (" ++
  " select \"" ++ joinStr pk "\",\"" ++ "\" " ++
  "       from \"" ++ temp ++ "\"" ++ ")"

/-- The error message raised for an invalid attribute filter
(`worker.cpp` lines 75-89): embeds the driver's last error text when
`CPLGetLastErrorMsg` is non-null, and always the attempted filter. -/
def filterErrorMessage (layerName filter : String)
    (lastErr : Option String) : String :=
  "The given filter for layer \"" ++ layerName ++ "\" is invalid" ++
  (match lastErr with
   | some e => ": " ++ e
   | none => ".") ++
  " The applied filter was [ " ++ filter ++ " ]"

/-- The three diff statements and the final job mutations
(`worker.cpp` lines 264-328).  The first `setStatistics` happens at
line 264 while `numCreated`, `numUpdated`, `numDeleted` are still 0;
the affected-row counts then come from `PQcmdTuples`; finally
`setStatus(FINISHED)` is followed by the second `setStatistics`. -/
def pullReconcile (layer : Layer) (tempTableName : String)
    (pk upd ins : List String) (db : DbModel) (numPulled : Nat) :
    List Event × List JobMutation :=
  let updStmt := buildUpdateStmt layer.target_table_schema
    layer.target_table_name tempTableName pk upd
  let insStmt := buildInsertMissingStmt layer.target_table_schema
    layer.target_table_name tempTableName pk ins
  let delStmt := buildDeleteRemovedStmt layer.target_table_schema
    layer.target_table_name tempTableName pk
  ([Event.exec updStmt, Event.exec insStmt, Event.exec delStmt],
   [JobMutation.setStatistics numPulled 0 0 0,
    JobMutation.setStatus Status.FINISHED,
    JobMutation.setStatistics numPulled (db.execTuples insStmt)
      (db.execTuples updStmt) (db.execTuples delStmt)])

/-- The transaction body (`worker.cpp` lines 126-328): create the
scratch table, introspect the target, check the primary-key
requirements, prepare the streaming insert, stream the features and
reconcile. -/
def pullInTransaction (layer : Layer) (job : JobInput)
    (lyr : OgrLayerModel) (ogrFields : List (String × OgrField))
    (db : DbModel) : PullOutcome :=
  let tempTableName := "batyr_" ++ job.id
  let ev0 : List Event :=
    [Event.beginTxn,
     Event.createTempTable layer.target_table_schema layer.target_table_name
       tempTableName,
     Event.getTableFields layer.target_table_schema layer.target_table_name]
  match partitionFields job.layerName ogrFields db.tableFields with
  | .error e => ⟨.error e, ev0, []⟩
  | .ok (pk, upd, _geomCol, ins) =>
    if pk = [] then
      ⟨.error ("Got no primarykey for layer \"" ++ job.layerName ++ "\""),
       ev0, []⟩
    else
      let missing := pk.filter (fun c => (ogrFields.lookup c).isNone)
      if missing ≠ [] then
        ⟨.error ("The source for layer \"" ++ job.layerName ++
           "\" is missing the following fields required by the primary key: " ++
           joinStr missing ", "),
         ev0, []⟩
      else
        let insertStmtName := "batyr_insert" ++ job.id
        let insertStmt := buildTempInsertStmt tempTableName ins db.tableFields
        let ev1 := ev0 ++ [Event.prepare insertStmtName insertStmt ins.length]
        match streamFeatures ogrFields db.tableFields ins insertStmtName 0
          lyr.features with
        | (sevs, _, some e) => ⟨.error e, ev1 ++ sevs, []⟩
        | (sevs, n, none) =>
          let (revs, muts) := pullReconcile layer tempTableName pk upd ins db n
          ⟨.ok (), ev1 ++ sevs ++ revs, muts⟩

/-- The stage after the source is opened and filtered
(`worker.cpp` lines 93-130): geometry field count check, collection
of the source columns, transaction start. -/
def pullWithSource (layer : Layer) (job : JobInput)
    (lyr : OgrLayerModel) (db : DbModel) : PullOutcome :=
  if lyr.geomFieldCount ≠ 1 then
    ⟨.error ("The source provides " ++ toString lyr.geomFieldCount ++
       "geometry fields. Currently only sources with on geoemtry field are supported"),
     [], []⟩
  else
    let ogrFields := collectOgrFields lyr.fieldDefns
    if db.canBegin then
      pullInTransaction layer job lyr ogrFields db
    else
      ⟨.ok (), [],
       [JobMutation.setStatus Status.FAILED,
        JobMutation.setMessage "Could not start a database transaction"]⟩

/-- The pull algorithm `Worker::pull` (`worker.cpp` lines 43-337):
open the dataset, resolve the source layer, reset the cursor, apply
the attribute filter when non-empty, then continue with
`pullWithSource`.  `ds = none` models `OGRSFDriverRegistrar::Open`
returning null. -/
def pull (layer : Layer) (job : JobInput) (ds : Option DatasetModel)
    (db : DbModel) : PullOutcome :=
  match ds with
  | none =>
    ⟨.error ("Could not open dataset for layer \"" ++ layer.name ++ "\""),
     [], []⟩
  | some dataset =>
    if dataset.layerFound = false then
      ⟨.error ("source_layer \"" ++ layer.source_layer ++
         "\" in dataset for layer \"" ++ layer.name ++ "\" not found"),
       [], []⟩
    else
      let lyr := dataset.layer
      if job.filter = "" then
        let r := pullWithSource layer job lyr db
        ⟨r.result, Event.resetReading :: r.events, r.muts⟩
      else
        match lyr.filterError with
        | some lastErr =>
          ⟨.error (filterErrorMessage layer.name job.filter lastErr),
           [Event.resetReading, Event.setAttributeFilter job.filter], []⟩
        | none =>
          let r := pullWithSource layer job lyr db
          ⟨r.result,
           Event.resetReading :: Event.setAttributeFilter job.filter :: r.events,
           r.muts⟩

/-- A database row, indexed by column name; `none` is SQL NULL.
Modelled from the spec: the PostgreSQL data model the generated
statements operate on (§6, "PostgreSQL with PostGIS ...
`is distinct from` NULL-safe comparison"). -/
def Row : Type := String → Option String

/-- NULL-safe row match on all primary-key columns: every primary-key
column of the target row `is not distinct from` the scratch row's
(two NULLs compare equal). -/
def pkMatches (pk : List String) (t s : Row) : Bool :=
  pk.all (fun c => t c == s c)

/-- NULL-safe difference on the update columns: at least one update
column of the target row `is distinct from` the scratch row's. -/
def rowDiffers (upd : List String) (t s : Row) : Bool :=
  upd.any (fun c => !(t c == s c))

/-- Effect of the SET clause on one row: every update column is
copied from the scratch row, all other columns keep the target
row's value. -/
def applyUpdateRow (upd : List String) (t s : Row) : Row :=
  fun c => if upd.contains c then s c else t c

/-- Modelled from the spec: the PostgreSQL denotation of the
generated `UPDATE ... FROM` statement (§6) on tables of rows.  A
target row is affected when some scratch row matches it on all
primary-key columns and differs on at least one update column; the
affected row has every update column copied from that scratch row;
the second component is the `PQcmdTuples` affected-row count.
(When several scratch rows qualify PostgreSQL uses an arbitrary one;
the embedding deterministically uses the first.) -/
def updateStep (pk upd : List String) (scratch : List Row) :
    List Row → List Row × Nat
  | [] => ([], 0)
  | t :: ts =>
    let (rest, n) := updateStep pk upd scratch ts
    match scratch.find? (fun s => pkMatches pk t s && rowDiffers upd t s) with
    | some s => (applyUpdateRow upd t s :: rest, n + 1)
    | none => (t :: rest, n)

/-- The four kinds of exception that can cross `Worker::pull`
(`worker.cpp` lines 371-389).  Modelled from the spec: the class
hierarchy (`Batyr::Db::DbError`, `WorkerError` and other exceptions
derived from `std::runtime_error`; anything else is not a
`std::runtime_error`) is declared in headers outside the sources at
hand; §7 classifies DbError and WorkerError among the recognized
runtime errors. -/
inductive CppException
  | dbError (msg : String)
  | workerError (msg : String)
  | runtimeError (msg : String)
  | nonRuntime
deriving DecidableEq, Repr

/-- Whether the exception is derived from `std::runtime_error`. -/
def isRuntimeDerived : CppException → Bool
  | .nonRuntime => false
  | _ => true

/-- The catch clauses of `Worker::run` in source order. -/
inductive CatchType
  | catchDb
  | catchWorker
  | catchRuntime
deriving DecidableEq, Repr

/-- C++ handler matching: an exception is caught by a clause whose
type it is derived from. -/
def isA : CppException → CatchType → Bool
  | .dbError _, .catchDb => true
  | .dbError _, .catchRuntime => true
  | .workerError _, .catchWorker => true
  | .workerError _, .catchRuntime => true
  | .runtimeError _, .catchRuntime => true
  | _, _ => false

/-- The first catch clause of `Worker::run` that handles the
exception: clauses are tried in source order
(`DbError`, `WorkerError`, `std::runtime_error`). -/
def handlerFor (e : CppException) : Option CatchType :=
  [CatchType.catchDb, CatchType.catchWorker, CatchType.catchRuntime].find?
    (fun t => isA e t)

/-- The message carried by the exception (`e.what()`). -/
def excMessage : CppException → String
  | .dbError m => m
  | .workerError m => m
  | .runtimeError m => m
  | .nonRuntime => ""

/-- Whether the loop continues with the next job, re-throws after
recording, or is escaped by an uncaught exception. -/
inductive LoopAction
  | continueLoop
  | rethrow
  | escape
deriving DecidableEq, Repr

/-- Effect of an exception thrown out of `pull` on the job record and
the worker loop (`worker.cpp` lines 371-389): each of the three
handlers sets status FAILED and the message to the exception text;
the `std::runtime_error` handler additionally re-throws; an uncaught
exception escapes the loop without touching the job. -/
def runCatch (st : JobState) (e : CppException) : JobState × LoopAction :=
  match handlerFor e with
  | some t =>
    let st' := { st with status := Status.FAILED, message := excMessage e }
    match t with
    | .catchDb => (st', .continueLoop)
    | .catchWorker => (st', .continueLoop)
    | .catchRuntime => (st', .rethrow)
  | none => (st, .escape)

/-- The job state at entry of `pull`: IN_PROCESS was set at
`worker.cpp` line 354 and the message cleared at line 367; the
statistics still hold their initial zeros. -/
def jobStateAtPull : JobState :=
  ⟨Status.IN_PROCESS, "", ⟨0, 0, 0, 0⟩⟩

/-- The spec's atomicity property for a job-mutation trace: an
observer never sees status FINISHED with statistics other than the
final ones, and never sees statistics other than the initial ones
before the terminal transition. -/
def statsAtomicWithFinished (st0 : JobState) (ms : List JobMutation) : Prop :=
  ∀ st ∈ observableStates st0 ms,
    (st.status = Status.FINISHED → st.stats = (finalState st0 ms).stats) ∧
    (st.status ≠ Status.FINISHED → st.stats = st0.stats)

/-- A demonstration layer configuration. -/
def demoLayer : Layer :=
  ⟨"roads", "/data/roads.shp", "roads", "public", "roads"⟩

/-- A demonstration job without a filter. -/
def demoJob : JobInput := ⟨"j1", "roads", ""⟩

/-- Target-table columns of the demonstration layer: a geometry
column, an integer primary key and a text column. -/
def demoFields : List TableField :=
  [⟨"geom", "geometry", false⟩, ⟨"id", "integer", true⟩,
   ⟨"name", "varchar", false⟩]

/-- One demonstration feature. -/
def demoFeature : OgrFeature :=
  { geom := .ok "0101000000000000000000F03F0000000000000040",
    fieldString := fun _ => "A", fieldInt := fun _ => 1,
    fieldReal := fun _ => 0 }

/-- The demonstration source layer: one geometry field, fields ID and
NAME, no filter error, one feature. -/
def demoLayerModel : OgrLayerModel :=
  { geomFieldCount := 1,
    fieldDefns := [("ID", .OFTInteger), ("NAME", .OFTString)],
    filterError := none,
    features := [demoFeature] }

/-- The demonstration dataset. -/
def demoDataset : DatasetModel := ⟨true, demoLayerModel⟩

/-- The demonstration database: transaction available, the target
columns above, and every mutation statement reporting one affected
row. -/
def demoDb : DbModel :=
  { canBegin := true, tableFields := demoFields, execTuples := fun _ => 1 }

/-- Target row for the NULL-flip scenario: id 1, name NULL. -/
def rowT : Row := fun c => if c = "id" then some "1" else none

/-- Scratch row for the NULL-flip scenario: id 1, name A. -/
def rowS : Row :=
  fun c => if c = "id" then some "1" else if c = "name" then some "A" else none

/-- Source layer for the C3 scenario: only a NAME field, so the
primary-key column id of the target has no source counterpart. -/
def c3LayerModel : OgrLayerModel :=
  { geomFieldCount := 1, fieldDefns := [("NAME", .OFTString)],
    filterError := none, features := [] }

/-- Target column for the C4 scenario. -/
def c4Fields : List TableField := [⟨"weight", "double precision", false⟩]

/-- Source fields for the C4 scenario: one REAL field WEIGHT. -/
def c4Og : List (String × OgrField) :=
  collectOgrFields [("WEIGHT", .OFTReal)]

/-- Feature for the C4 scenario holding the double `2 ^ (-24)`. -/
def c4Feature : OgrFeature :=
  { geom := .ok "", fieldString := fun _ => "", fieldInt := fun _ => 0,
    fieldReal := fun _ => 1/16777216 }

/-- Job carrying the invalid filter of the C7 scenario. -/
def c7Job : JobInput := ⟨"j1", "roads", "nope ="⟩

/-- Source layer of the C7 scenario: the driver rejects the filter
with last error text "syntax error". -/
def c7LayerModel : OgrLayerModel :=
  { demoLayerModel with filterError := some (some "syntax error") }

/-- Target columns for the C9 scenario: every column belongs to the
primary key, so the update-column list is empty. -/
def c9Fields : List TableField := [⟨"id", "integer", true⟩]

/-- Source layer for the C9 scenario. -/
def c9LayerModel : OgrLayerModel :=
  { geomFieldCount := 1, fieldDefns := [("ID", .OFTInteger)],
    filterError := none, features := [] }

/-- Database model for the C9 scenario. -/
def c9Db : DbModel :=
  { canBegin := true, tableFields := c9Fields, execTuples := fun _ => 0 }

/-- The predicate of the generated UPDATE's WHERE clause on a pair of
rows: primary-key match (NULL-safe) and difference on at least one
update column (NULL-safe). -/
def updHit (pk upd : List String) (t s : Row) : Bool :=
  pkMatches pk t s && rowDiffers upd t s

lemma updateStep_cons (pk upd : List String) (scratch : List Row)
    (t : Row) (ts : List Row) :
    updateStep pk upd scratch (t :: ts) =
      match scratch.find? (fun s => pkMatches pk t s && rowDiffers upd t s) with
      | some s => (applyUpdateRow upd t s :: (updateStep pk upd scratch ts).1,
                   (updateStep pk upd scratch ts).2 + 1)
      | none => (t :: (updateStep pk upd scratch ts).1,
                 (updateStep pk upd scratch ts).2) := by
  simp only [updateStep]

lemma updateStep_count (pk upd : List String) (scratch : List Row) :
    ∀ target : List Row,
      (updateStep pk upd scratch target).2 =
        target.countP (fun t => scratch.any (fun s => updHit pk upd t s))
  | [] => rfl
  | t :: ts => by
    rw [updateStep_cons, List.countP_cons]
    rcases h : scratch.find? (fun s => pkMatches pk t s && rowDiffers upd t s)
      with _ | s
    · have hex : ¬ ∃ x ∈ scratch,
          pkMatches pk t x = true ∧ rowDiffers upd t x = true := by
        rintro ⟨x, hx, h1, h2⟩
        have hnone := List.find?_eq_none.mp h x hx
        exact hnone (by simp [h1, h2])
      simp [updateStep_count pk upd scratch ts, updHit, hex]
    · have hmem := List.mem_of_find?_eq_some h
      have hps := List.find?_some h
      have hex : ∃ x ∈ scratch,
          pkMatches pk t x = true ∧ rowDiffers upd t x = true :=
        ⟨s, hmem, by simpa using hps⟩
      simp [updateStep_count pk upd scratch ts, updHit, hex]

lemma applyUpdateRow_mem (upd : List String) (t s : Row) (c : String)
    (h : c ∈ upd) : applyUpdateRow upd t s c = s c := by
  simp [applyUpdateRow, h]

lemma applyUpdateRow_not_mem (upd : List String) (t s : Row) (c : String)
    (h : c ∉ upd) : applyUpdateRow upd t s c = t c := by
  simp [applyUpdateRow, h]

lemma updateStep_frame (pk upd : List String) (scratch : List Row) :
    ∀ target : List Row,
      List.Forall₂ (fun t' t => ∀ c, c ∉ upd → t' c = t c)
        (updateStep pk upd scratch target).1 target
  | [] => List.Forall₂.nil
  | t :: ts => by
    rw [updateStep_cons]
    rcases h : scratch.find? (fun s => pkMatches pk t s && rowDiffers upd t s)
      with _ | s
    · exact List.Forall₂.cons (fun c _ => rfl) (updateStep_frame pk upd scratch ts)
    · exact List.Forall₂.cons (fun c hc => applyUpdateRow_not_mem upd t s c hc)
        (updateStep_frame pk upd scratch ts)

lemma rowDiffers_eq_false_of_agree (upd : List String) (t s : Row)
    (h : ∀ c, t c = s c) : rowDiffers upd t s = false := by
  rw [rowDiffers, List.any_eq_false]
  intro c _
  simp [h c]

lemma updateStep_single_agree (pk upd : List String) (t s : Row)
    (h : ∀ c, t c = s c) : updateStep pk upd [s] [t] = ([t], 0) := by
  have hd : rowDiffers upd t s = false := rowDiffers_eq_false_of_agree upd t s h
  rw [updateStep_cons]
  simp [List.find?, hd, updateStep]

lemma updateStep_single_hit (pk upd : List String) (t s : Row)
    (hm : pkMatches pk t s = true) (hd : rowDiffers upd t s = true) :
    updateStep pk upd [s] [t] = ([applyUpdateRow upd t s], 1) := by
  rw [updateStep_cons]
  simp [List.find?, hm, hd, updateStep]

lemma rowDiffers_of_flip (upd : List String) (t s : Row) (c : String)
    (hc : c ∈ upd) (hne : t c ≠ s c) : rowDiffers upd t s = true := by
  rw [rowDiffers, List.any_eq_true]
  refine ⟨c, hc, ?_⟩
  simpa using hne

lemma partitionFieldsAux_ok (ln : String) (og : List (String × OgrField)) :
    ∀ (fields : List TableField) (pk upd : List String) (g : String)
      (ins pk' upd' : List String) (g' : String) (ins' : List String),
      partitionFieldsAux ln og pk upd g ins fields = .ok (pk', upd', g', ins') →
      pk' = pk ++ (fields.filter (fun f => f.isPrimaryKey)).map (fun f => f.name) ∧
      upd' = upd ++ (fields.filter (fun f => !f.isPrimaryKey)).map (fun f => f.name)
  | [], pk, upd, g, ins, pk', upd', g', ins', h => by
    simp only [partitionFieldsAux] at h
    cases h
    simp
  | f :: rest, pk, upd, g, ins, pk', upd', g', ins', h => by
    simp only [partitionFieldsAux] at h
    by_cases hgeo : f.pgTypeName = "geometry"
    · rw [if_pos hgeo] at h
      by_cases hg : g ≠ ""
      · rw [if_pos hg] at h
        cases h
      · rw [if_neg hg] at h
        have ih := partitionFieldsAux_ok ln og rest _ _ _ _ _ _ _ _ h
        rcases ih with ⟨h1, h2⟩
        cases hfpk : f.isPrimaryKey <;>
          simp [hfpk, hgeo] at h1 h2 ⊢ <;> simp [h1, h2]
    · rw [if_neg hgeo] at h
      have ih := partitionFieldsAux_ok ln og rest _ _ _ _ _ _ _ _ h
      rcases ih with ⟨h1, h2⟩
      cases hfpk : f.isPrimaryKey <;>
        simp [hfpk, hgeo] at h1 h2 ⊢ <;> simp [h1, h2]

lemma partitionFields_ok (ln : String) (og : List (String × OgrField))
    (fields : List TableField) (pk upd : List String) (g : String)
    (ins : List String)
    (h : partitionFields ln og fields = .ok (pk, upd, g, ins)) :
    pk = (fields.filter (fun f => f.isPrimaryKey)).map (fun f => f.name) ∧
    upd = (fields.filter (fun f => !f.isPrimaryKey)).map (fun f => f.name) := by
  have := partitionFieldsAux_ok ln og fields [] [] "" [] pk upd g ins h
  simpa using this

lemma pk_upd_name_disjoint :
    ∀ (fields : List TableField),
      (fields.map (fun f => f.name)).Nodup →
      ∀ c, c ∈ (fields.filter (fun f => f.isPrimaryKey)).map (fun f => f.name) →
        c ∉ (fields.filter (fun f => !f.isPrimaryKey)).map (fun f => f.name)
  | [], _, c, hc => by simp at hc
  | f :: rest, hnd, c, hc => by
    rw [List.map_cons, List.nodup_cons] at hnd
    obtain ⟨hhead, hrest⟩ := hnd
    intro hmem
    cases hfpk : f.isPrimaryKey with
    | true =>
      rw [List.filter_cons_of_pos (by simp [hfpk])] at hc
      rw [List.filter_cons_of_neg (by simp [hfpk])] at hmem
      rw [List.map_cons, List.mem_cons] at hc
      rcases hc with hc | hc
      · subst hc
        rcases List.mem_map.mp hmem with ⟨x, hx, hxn⟩
        exact hhead (List.mem_map.mpr ⟨x, List.mem_of_mem_filter hx, hxn⟩)
      · exact pk_upd_name_disjoint rest hrest c hc hmem
    | false =>
      rw [List.filter_cons_of_neg (by simp [hfpk])] at hc
      rw [List.filter_cons_of_pos (by simp [hfpk])] at hmem
      rw [List.map_cons, List.mem_cons] at hmem
      rcases hmem with hmem | hmem
      · rcases List.mem_map.mp hc with ⟨x, hx, hxn⟩
        rw [hmem] at hxn
        exact hhead (List.mem_map.mpr ⟨x, List.mem_of_mem_filter hx, hxn⟩)
      · exact pk_upd_name_disjoint rest hrest c hc hmem

lemma cppToString6_eval (q : Rat) (n : Int) (h0 : ¬ q < 0)
    (h : roundHalfEven (q * 1000000) = n) :
    cppToString6 q = toString (n / 1000000) ++ "." ++ pad6 ((n % 1000000).toNat) := by
  simp [cppToString6, cppToString6Abs, h0, h]

lemma pull_toTransaction (layer : Layer) (job : JobInput) (d : DatasetModel)
    (db : DbModel)
    (hfound : d.layerFound = true)
    (hfil : job.filter = "" ∨ d.layer.filterError = none)
    (hgeom : d.layer.geomFieldCount = 1)
    (hdb : db.canBegin = true) :
    pull layer job (some d) db =
      ⟨(pullInTransaction layer job d.layer (collectOgrFields d.layer.fieldDefns) db).result,
       (if job.filter = "" then [Event.resetReading]
        else [Event.resetReading, Event.setAttributeFilter job.filter]) ++
         (pullInTransaction layer job d.layer (collectOgrFields d.layer.fieldDefns) db).events,
       (pullInTransaction layer job d.layer (collectOgrFields d.layer.fieldDefns) db).muts⟩ := by
  by_cases hf : job.filter = ""
  · simp [pull, hfound, hf, pullWithSource, hgeom, hdb]
  · rcases hfil with hfil | hfil
    · exact absurd hfil hf
    · simp [pull, hfound, hf, hfil, pullWithSource, hgeom, hdb]

lemma pullInTransaction_missing (layer : Layer) (job : JobInput)
    (lyr : OgrLayerModel) (og : List (String × OgrField)) (db : DbModel)
    (pk upd : List String) (g : String) (ins : List String)
    (hpart : partitionFields job.layerName og db.tableFields = .ok (pk, upd, g, ins))
    (hpk : pk ≠ [])
    (hmiss : pk.filter (fun c => (og.lookup c).isNone) ≠ []) :
    pullInTransaction layer job lyr og db =
      ⟨.error ("The source for layer \"" ++ job.layerName ++
         "\" is missing the following fields required by the primary key: " ++
         joinStr (pk.filter (fun c => (og.lookup c).isNone)) ", "),
       [Event.beginTxn,
        Event.createTempTable layer.target_table_schema layer.target_table_name
          ("batyr_" ++ job.id),
        Event.getTableFields layer.target_table_schema layer.target_table_name],
       []⟩ := by
  simp [pullInTransaction, hpart, hpk, hmiss]

lemma pullInTransaction_success (layer : Layer) (job : JobInput)
    (lyr : OgrLayerModel) (og : List (String × OgrField)) (db : DbModel)
    (pk upd : List String) (g : String) (ins : List String)
    (sevs : List Event) (n : Nat)
    (hpart : partitionFields job.layerName og db.tableFields = .ok (pk, upd, g, ins))
    (hpk : pk ≠ [])
    (hmiss : pk.filter (fun c => (og.lookup c).isNone) = [])
    (hstream : streamFeatures og db.tableFields ins ("batyr_insert" ++ job.id) 0
      lyr.features = (sevs, n, none)) :
    pullInTransaction layer job lyr og db =
      ⟨.ok (),
       [Event.beginTxn,
        Event.createTempTable layer.target_table_schema layer.target_table_name
          ("batyr_" ++ job.id),
        Event.getTableFields layer.target_table_schema layer.target_table_name,
        Event.prepare ("batyr_insert" ++ job.id)
          (buildTempInsertStmt ("batyr_" ++ job.id) ins db.tableFields) ins.length] ++
       sevs ++
       [Event.exec (buildUpdateStmt layer.target_table_schema
          layer.target_table_name ("batyr_" ++ job.id) pk upd),
        Event.exec (buildInsertMissingStmt layer.target_table_schema
          layer.target_table_name ("batyr_" ++ job.id) pk ins),
        Event.exec (buildDeleteRemovedStmt layer.target_table_schema
          layer.target_table_name ("batyr_" ++ job.id) pk)],
       [JobMutation.setStatistics n 0 0 0,
        JobMutation.setStatus Status.FINISHED,
        JobMutation.setStatistics n
          (db.execTuples (buildInsertMissingStmt layer.target_table_schema
            layer.target_table_name ("batyr_" ++ job.id) pk ins))
          (db.execTuples (buildUpdateStmt layer.target_table_schema
            layer.target_table_name ("batyr_" ++ job.id) pk upd))
          (db.execTuples (buildDeleteRemovedStmt layer.target_table_schema
            layer.target_table_name ("batyr_" ++ job.id) pk))]⟩ := by
  simp [pullInTransaction, hpart, hpk, hmiss, hstream, pullReconcile]

lemma streamFeatures_no_filter (og : List (String × OgrField))
    (fields : List TableField) (ins : List String) (nm : String) :
    ∀ (features : List OgrFeature) (k : Nat) (e : Event),
      e ∈ (streamFeatures og fields ins nm k features).1 →
      e.isSetFilter = false
  | [], _, e, he => by simp [streamFeatures] at he
  | f :: rest, k, e, he => by
    cases h : featureValues og fields f k ins with
    | error err =>
      simp only [streamFeatures, h] at he
      simp at he
      subst he
      rfl
    | ok vals =>
      simp only [streamFeatures, h] at he
      simp only [List.mem_cons] at he
      rcases he with rfl | rfl | he
      · rfl
      · rfl
      · exact streamFeatures_no_filter og fields ins nm rest (k + 1) e he

lemma pullInTransaction_streamErr (layer : Layer) (job : JobInput)
    (lyr : OgrLayerModel) (og : List (String × OgrField)) (db : DbModel)
    (pk upd : List String) (g : String) (ins : List String)
    (sevs : List Event) (n : Nat) (msg : String)
    (hpart : partitionFields job.layerName og db.tableFields = .ok (pk, upd, g, ins))
    (hpk : pk ≠ [])
    (hmiss : pk.filter (fun c => (og.lookup c).isNone) = [])
    (hstream : streamFeatures og db.tableFields ins ("batyr_insert" ++ job.id) 0
      lyr.features = (sevs, n, some msg)) :
    pullInTransaction layer job lyr og db =
      ⟨.error msg,
       [Event.beginTxn,
        Event.createTempTable layer.target_table_schema layer.target_table_name
          ("batyr_" ++ job.id),
        Event.getTableFields layer.target_table_schema layer.target_table_name,
        Event.prepare ("batyr_insert" ++ job.id)
          (buildTempInsertStmt ("batyr_" ++ job.id) ins db.tableFields) ins.length] ++
       sevs,
       []⟩ := by
  simp [pullInTransaction, hpart, hpk, hmiss, hstream]

lemma pullInTransaction_no_filter (layer : Layer) (job : JobInput)
    (lyr : OgrLayerModel) (og : List (String × OgrField)) (db : DbModel)
    (e : Event) (he : e ∈ (pullInTransaction layer job lyr og db).events) :
    e.isSetFilter = false := by
  cases hpart : partitionFields job.layerName og db.tableFields with
  | error err =>
    simp only [pullInTransaction, hpart] at he
    simp at he
    rcases he with rfl | rfl | rfl <;> rfl
  | ok r =>
    obtain ⟨pk, upd, g, ins⟩ := r
    by_cases hpk : pk = []
    · simp only [pullInTransaction, hpart] at he
      simp [hpk] at he
      rcases he with rfl | rfl | rfl <;> rfl
    · by_cases hmiss : pk.filter (fun c => (og.lookup c).isNone) = []
      · rcases hstream : streamFeatures og db.tableFields ins
          ("batyr_insert" ++ job.id) 0 lyr.features with ⟨sevs, n, err⟩
        have hs : ∀ x ∈ sevs, Event.isSetFilter x = false := by
          intro x hx
          exact streamFeatures_no_filter og db.tableFields ins
            ("batyr_insert" ++ job.id) lyr.features 0 x (by rw [hstream]; exact hx)
        cases err with
        | none =>
          rw [pullInTransaction_success layer job lyr og db pk upd g ins sevs n
            hpart hpk hmiss hstream] at he
          simp only [List.mem_append] at he
          rcases he with (he | he) | he
          · fin_cases he <;> rfl
          · exact hs e he
          · fin_cases he <;> rfl
        | some msg =>
          rw [pullInTransaction_streamErr layer job lyr og db pk upd g ins sevs
            n msg hpart hpk hmiss hstream] at he
          simp only [List.mem_append] at he
          rcases he with he | he
          · fin_cases he <;> rfl
          · exact hs e he
      · rw [pullInTransaction_missing layer job lyr og db pk upd g ins
          hpart hpk hmiss] at he
        simp at he
        rcases he with rfl | rfl | rfl <;> rfl

lemma pullWithSource_no_filter (layer : Layer) (job : JobInput)
    (lyr : OgrLayerModel) (db : DbModel) (e : Event)
    (he : e ∈ (pullWithSource layer job lyr db).events) :
    e.isSetFilter = false := by
  by_cases hgeom : lyr.geomFieldCount ≠ 1
  · unfold pullWithSource at he
    rw [if_pos hgeom] at he
    simp at he
  · unfold pullWithSource at he
    rw [if_neg hgeom] at he
    by_cases hdb : db.canBegin
    · rw [if_pos hdb] at he
      exact pullInTransaction_no_filter layer job lyr
        (collectOgrFields lyr.fieldDefns) db e he
    · rw [if_neg hdb] at he
      simp at he

lemma pull_no_filter_when_empty (layer : Layer) (job : JobInput)
    (ds : Option DatasetModel) (db : DbModel) (hf : job.filter = "")
    (e : Event) (he : e ∈ (pull layer job ds db).events) :
    e.isSetFilter = false := by
  cases ds with
  | none => simp [pull] at he
  | some d =>
    by_cases hfound : d.layerFound = false
    · simp [pull, hfound] at he
    · have hrw : pull layer job (some d) db =
          ⟨(pullWithSource layer job d.layer db).result,
           Event.resetReading :: (pullWithSource layer job d.layer db).events,
           (pullWithSource layer job d.layer db).muts⟩ := by
        simp [pull, hfound, hf]
      rw [hrw] at he
      simp only [List.mem_cons] at he
      rcases he with rfl | he
      · rfl
      · exact pullWithSource_no_filter layer job d.layer db e he

/-- Claim C1: the update step of differential reconciliation affects
exactly the target rows that match a scratch row on all primary-key
columns under NULL-safe comparison and differ on at least one non-PK
column under NULL-safe comparison; every non-PK column is copied from
scratch to target; the affected-row count becomes the job's updated
statistic; rows agreeing on all columns (including NULLs) yield zero
updates and a NULL/non-NULL flip of a non-PK column yields exactly
one update. -/
theorem claim_C1_update_step (pk upd : List String)
    (scratch target : List Row) (t s : Row) :
    ((updateStep pk upd scratch target).2 =
       target.countP (fun r => scratch.any (fun r' => updHit pk upd r r')))
    ∧ (∀ c ∈ upd, applyUpdateRow upd t s c = s c)
    ∧ ((∀ c, t c = s c) → updateStep pk upd [s] [t] = ([t], 0))
    ∧ (∀ c ∈ upd, pkMatches pk t s = true → t c = none → s c ≠ none →
        updateStep pk upd [s] [t] = ([applyUpdateRow upd t s], 1))
    ∧ (∀ (layer : Layer) (job : JobInput) (d : DatasetModel) (db : DbModel)
         (pk' upd' : List String) (g : String) (ins : List String)
         (sevs : List Event) (n : Nat),
        d.layerFound = true →
        (job.filter = "" ∨ d.layer.filterError = none) →
        d.layer.geomFieldCount = 1 →
        db.canBegin = true →
        partitionFields job.layerName (collectOgrFields d.layer.fieldDefns)
          db.tableFields = .ok (pk', upd', g, ins) →
        pk' ≠ [] →
        pk'.filter (fun c =>
          ((collectOgrFields d.layer.fieldDefns).lookup c).isNone) = [] →
        streamFeatures (collectOgrFields d.layer.fieldDefns) db.tableFields ins
          ("batyr_insert" ++ job.id) 0 d.layer.features = (sevs, n, none) →
        (finalState jobStateAtPull (pull layer job (some d) db).muts).stats.updated =
          db.execTuples (buildUpdateStmt layer.target_table_schema
            layer.target_table_name ("batyr_" ++ job.id) pk' upd')) := by
  refine ⟨updateStep_count pk upd scratch target,
    fun c hc => applyUpdateRow_mem upd t s c hc,
    fun h => updateStep_single_agree pk upd t s h,
    fun c hc hm ht hs => updateStep_single_hit pk upd t s hm
      (rowDiffers_of_flip upd t s c hc (by rw [ht]; exact fun he => hs he.symm)),
    ?_⟩
  intro layer job d db pk' upd' g ins sevs n hfound hfil hgeom hdb hpart hpk
    hmiss hstream
  rw [pull_toTransaction layer job d db hfound hfil hgeom hdb,
    pullInTransaction_success layer job d.layer
      (collectOgrFields d.layer.fieldDefns) db pk' upd' g ins sevs n
      hpart hpk hmiss hstream]
  simp [finalState, applyMutation, jobStateAtPull]

/-- Witness for C1: the NULL-flip scenario (target name NULL, scratch
name A, matching primary key) yields exactly one update with the name
copied, and the demonstration run records the update statement's
affected-row count as the updated statistic. -/
theorem claim_C1_update_step_witness :
    updateStep ["id"] ["name"] [rowS] [rowT] =
      ([applyUpdateRow ["name"] rowT rowS], 1) ∧
    (finalState jobStateAtPull
      (pull demoLayer demoJob (some demoDataset) demoDb).muts).stats.updated =
      demoDb.execTuples (buildUpdateStmt "public" "roads" "batyr_j1" ["id"]
        ["geom", "name"]) := by
  constructor
  · exact (claim_C1_update_step ["id"] ["name"] [rowS] [rowT] rowT rowS).2.2.2.1
      "name" (by decide) (by decide) (by decide) (by decide)
  · exact (claim_C1_update_step [] [] [] [] rowT rowS).2.2.2.2
      demoLayer demoJob demoDataset demoDb ["id"] ["geom", "name"] "geom"
      ["geom", "id", "name"]
      [Event.getNextFeature 0,
       Event.execPrepared "batyr_insertj1"
         ["0101000000000000000000F03F0000000000000040", "1", "A"]] 1
      (by decide) (Or.inl (by decide)) (by decide) (by decide) (by decide)
      (by decide) (by decide) (by decide)

/-- Claim C5: a source schema with a geometry-field count other than
one makes the pull fail with the unsupported-geometry-field-count
message, before any feature is read and before any database work. -/
theorem claim_C5_geometry_field_count (layer : Layer) (job : JobInput)
    (d : DatasetModel) (db : DbModel)
    (hfound : d.layerFound = true)
    (hfil : job.filter = "" ∨ d.layer.filterError = none)
    (hgeom : d.layer.geomFieldCount ≠ 1) :
    (pull layer job (some d) db).result =
      .error ("The source provides " ++ toString d.layer.geomFieldCount ++
        "geometry fields. Currently only sources with on geoemtry field are supported")
    ∧ ∀ e ∈ (pull layer job (some d) db).events,
        e.isDbWork = false ∧ e.isFeatureRead = false := by
  have hpull : pull layer job (some d) db =
      ⟨.error ("The source provides " ++ toString d.layer.geomFieldCount ++
         "geometry fields. Currently only sources with on geoemtry field are supported"),
       if job.filter = "" then [Event.resetReading]
       else [Event.resetReading, Event.setAttributeFilter job.filter], []⟩ := by
    by_cases hf : job.filter = ""
    · simp [pull, hfound, hf, pullWithSource, hgeom]
    · rcases hfil with hfil | hfil
      · exact absurd hfil hf
      · simp [pull, hfound, hf, hfil, pullWithSource, hgeom]
  rw [hpull]
  refine ⟨rfl, ?_⟩
  intro e he
  by_cases hf : job.filter = ""
  · rw [if_pos hf] at he
    simp at he
    subst he
    exact ⟨rfl, rfl⟩
  · rw [if_neg hf] at he
    simp at he
    rcases he with rfl | rfl <;> exact ⟨rfl, rfl⟩

/-- Witness for C5: a source with two geometry fields fails with the
message and performs no database work and no feature read. -/
theorem claim_C5_geometry_field_count_witness :
    (pull demoLayer demoJob
      (some ⟨true, { demoLayerModel with geomFieldCount := 2 }⟩) demoDb).result =
      .error ("The source provides 2" ++
        "geometry fields. Currently only sources with on geoemtry field are supported")
    ∧ ∀ e ∈ (pull demoLayer demoJob
        (some ⟨true, { demoLayerModel with geomFieldCount := 2 }⟩) demoDb).events,
        e.isDbWork = false ∧ e.isFeatureRead = false := by
  have h := claim_C5_geometry_field_count demoLayer demoJob
    ⟨true, { demoLayerModel with geomFieldCount := 2 }⟩ demoDb
    (by decide) (Or.inl (by decide)) (by decide)
  exact h

/-- Claim C6 (amended): the WKB export failure aborts with a message
carrying the feature ordinal; the two allocation failures abort with
fixed messages that do not mention the ordinal; successful encoding
yields the hex string; a geometry-encoding failure of the current
feature aborts the value construction with that message. -/
theorem claim_C6_encoding_errors (n : Nat) (hex : String)
    (og : List (String × OgrField)) (fields : List TableField)
    (c : String) (cs : List String) (f : OgrFeature) :
    encodeGeometry .exportFail n =
      .error ("Could not export the geometry from feature #" ++ toString n)
    ∧ encodeGeometry .mallocFail n =
      .error "Unable to allocate memory to export geometry"
    ∧ encodeGeometry .hexFail n =
      .error "Unable to allocate memory to convert geometry to hex"
    ∧ encodeGeometry (.ok hex) n = .ok hex
    ∧ ((getTableField fields c).pgTypeName = "geometry" →
        f.geom = .exportFail →
        featureValues og fields f n (c :: cs) =
          .error ("Could not export the geometry from feature #" ++ toString n)) := by
  refine ⟨rfl, rfl, rfl, rfl, fun hg hf => ?_⟩
  simp [featureValues, hg, hf, encodeGeometry]

/-- Witness for C6 (amended): at feature ordinal 5 of the
demonstration schema, an export failure on the geometry column aborts
with the message naming feature 5. -/
theorem claim_C6_encoding_errors_witness :
    featureValues (collectOgrFields demoLayerModel.fieldDefns) demoFields
      { demoFeature with geom := .exportFail } 5 ["geom", "id", "name"] =
      .error ("Could not export the geometry from feature #" ++ toString 5) := by
  exact (claim_C6_encoding_errors 5 "" (collectOgrFields demoLayerModel.fieldDefns)
    demoFields "geom" ["id", "name"] { demoFeature with geom := .exportFail }).2.2.2.2
    (by decide) rfl

/-- Counterexample for C6: an allocation failure during geometry
export produces the same message at ordinal 5 and at ordinal 7, and
likewise for the hex-conversion allocation failure, so these messages
do not identify the ordinal of the feature being processed. -/
theorem claim_C6_counterexample :
    encodeGeometry .mallocFail 5 =
      .error "Unable to allocate memory to export geometry"
    ∧ encodeGeometry .mallocFail 5 = encodeGeometry .mallocFail 7
    ∧ encodeGeometry .hexFail 5 = encodeGeometry .hexFail 7 := by
  exact ⟨rfl, rfl, rfl⟩

/-- Claim C8: the SET clause of the generated UPDATE is built exactly
from the non-primary-key columns, those are disjoint from the
primary-key columns (for distinct column names), and the update step
leaves every primary-key column of every target row unchanged. -/
theorem claim_C8_pk_never_updated (ln : String)
    (og : List (String × OgrField)) (fields : List TableField)
    (pk upd : List String) (g : String) (ins : List String)
    (scratch target : List Row)
    (hpart : partitionFields ln og fields = .ok (pk, upd, g, ins))
    (hnd : (fields.map (fun f => f.name)).Nodup) :
    upd = (fields.filter (fun f => !f.isPrimaryKey)).map (fun f => f.name)
    ∧ (∀ c ∈ pk, c ∉ upd)
    ∧ List.Forall₂ (fun t' t => ∀ c ∈ pk, t' c = t c)
        (updateStep pk upd scratch target).1 target := by
  obtain ⟨hpk, hupd⟩ := partitionFields_ok ln og fields pk upd g ins hpart
  have hdisj : ∀ c ∈ pk, c ∉ upd := by
    intro c hc
    rw [hupd]
    rw [hpk] at hc
    exact pk_upd_name_disjoint fields hnd c hc
  refine ⟨hupd, hdisj, ?_⟩
  have hframe := updateStep_frame pk upd scratch target
  exact hframe.imp (fun {a b} h c hc => h c (hdisj c hc))

/-- Witness for C8: for the demonstration table the non-PK columns
are geom and name, the primary key id is not among them, and the
update step keeps id unchanged on the NULL-flip rows. -/
theorem claim_C8_pk_never_updated_witness :
    (["geom", "name"] :
        List String) = (demoFields.filter (fun f => !f.isPrimaryKey)).map
        (fun f => f.name)
    ∧ (∀ c ∈ (["id"] : List String), c ∉ (["geom", "name"] : List String))
    ∧ List.Forall₂ (fun t' t => ∀ c ∈ (["id"] : List String), t' c = t c)
        (updateStep ["id"] ["geom", "name"] [rowS] [rowT]).1 [rowT] := by
  exact claim_C8_pk_never_updated "roads"
    (collectOgrFields demoLayerModel.fieldDefns) demoFields
    ["id"] ["geom", "name"] "geom" ["geom", "id", "name"] [rowS] [rowT]
    (by decide) (by decide)

/-- Counterexample for C2: in the demonstration run, the observer
states of the job include partial statistics (1,0,0,0) published
while the status is still IN_PROCESS, and the FINISHED status
together with those stale statistics before the final (1,1,1,1) are
stored; the statistics are therefore not set atomically with the
transition to FINISHED. -/
theorem claim_C2_counterexample :
    ¬ statsAtomicWithFinished jobStateAtPull
      (pull demoLayer demoJob (some demoDataset) demoDb).muts := by
  unfold statsAtomicWithFinished
  decide

/-- Claim C2 (amended): on the success path the job record is mutated
in exactly three steps: the pulled count with zeroed diff statistics
before reconciliation, then status FINISHED, then the final
statistics in a separate mutation, so FINISHED is momentarily
observable with stale statistics. -/
theorem claim_C2_two_phase_statistics (layer : Layer) (job : JobInput)
    (d : DatasetModel) (db : DbModel)
    (pk upd : List String) (g : String) (ins : List String)
    (sevs : List Event) (n : Nat)
    (hfound : d.layerFound = true)
    (hfil : job.filter = "" ∨ d.layer.filterError = none)
    (hgeom : d.layer.geomFieldCount = 1)
    (hdb : db.canBegin = true)
    (hpart : partitionFields job.layerName (collectOgrFields d.layer.fieldDefns)
      db.tableFields = .ok (pk, upd, g, ins))
    (hpk : pk ≠ [])
    (hmiss : pk.filter (fun c =>
      ((collectOgrFields d.layer.fieldDefns).lookup c).isNone) = [])
    (hstream : streamFeatures (collectOgrFields d.layer.fieldDefns)
      db.tableFields ins ("batyr_insert" ++ job.id) 0 d.layer.features =
      (sevs, n, none)) :
    (pull layer job (some d) db).muts =
      [JobMutation.setStatistics n 0 0 0,
       JobMutation.setStatus Status.FINISHED,
       JobMutation.setStatistics n
         (db.execTuples (buildInsertMissingStmt layer.target_table_schema
           layer.target_table_name ("batyr_" ++ job.id) pk ins))
         (db.execTuples (buildUpdateStmt layer.target_table_schema
           layer.target_table_name ("batyr_" ++ job.id) pk upd))
         (db.execTuples (buildDeleteRemovedStmt layer.target_table_schema
           layer.target_table_name ("batyr_" ++ job.id) pk))] := by
  rw [pull_toTransaction layer job d db hfound hfil hgeom hdb,
    pullInTransaction_success layer job d.layer
      (collectOgrFields d.layer.fieldDefns) db pk upd g ins sevs n
      hpart hpk hmiss hstream]

/-- Witness for C2 (amended): the demonstration run performs exactly
the three mutations, with the final statistics (1,1,1,1) following
the FINISHED transition. -/
theorem claim_C2_two_phase_statistics_witness :
    (pull demoLayer demoJob (some demoDataset) demoDb).muts =
      [JobMutation.setStatistics 1 0 0 0,
       JobMutation.setStatus Status.FINISHED,
       JobMutation.setStatistics 1
         (demoDb.execTuples (buildInsertMissingStmt "public" "roads" "batyr_j1"
           ["id"] ["geom", "id", "name"]))
         (demoDb.execTuples (buildUpdateStmt "public" "roads" "batyr_j1"
           ["id"] ["geom", "name"]))
         (demoDb.execTuples (buildDeleteRemovedStmt "public" "roads" "batyr_j1"
           ["id"]))] := by
  exact claim_C2_two_phase_statistics demoLayer demoJob demoDataset demoDb
    ["id"] ["geom", "name"] "geom" ["geom", "id", "name"]
    [Event.getNextFeature 0,
     Event.execPrepared "batyr_insertj1"
       ["0101000000000000000000F03F0000000000000040", "1", "A"]] 1
    (by decide) (Or.inl (by decide)) (by decide) (by decide) (by decide)
    (by decide) (by decide) (by decide)

/-- Counterexample for C3: with the primary-key column id missing
from the source, the pull does fail with the message naming id, but
only after the transaction was begun and the scratch table created:
SQL has been executed against the database before the failure. -/
theorem claim_C3_counterexample :
    (pull demoLayer demoJob (some ⟨true, c3LayerModel⟩) demoDb).result =
      .error "The source for layer \"roads\" is missing the following fields required by the primary key: id"
    ∧ Event.beginTxn ∈
        (pull demoLayer demoJob (some ⟨true, c3LayerModel⟩) demoDb).events
    ∧ Event.createTempTable "public" "roads" "batyr_j1" ∈
        (pull demoLayer demoJob (some ⟨true, c3LayerModel⟩) demoDb).events := by
  refine ⟨by decide, by decide, by decide⟩

/-- Claim C3 (amended): when primary-key columns are missing from the
source fields the pull fails with the message listing all missing
column names, after the transaction begin, scratch-table creation and
catalog introspection, but before any statement is prepared and
before any row reaches the scratch or target table. -/
theorem claim_C3_missing_pk (layer : Layer) (job : JobInput)
    (d : DatasetModel) (db : DbModel)
    (pk upd : List String) (g : String) (ins : List String)
    (hfound : d.layerFound = true)
    (hfil : job.filter = "" ∨ d.layer.filterError = none)
    (hgeom : d.layer.geomFieldCount = 1)
    (hdb : db.canBegin = true)
    (hpart : partitionFields job.layerName (collectOgrFields d.layer.fieldDefns)
      db.tableFields = .ok (pk, upd, g, ins))
    (hpk : pk ≠ [])
    (hmiss : pk.filter (fun c =>
      ((collectOgrFields d.layer.fieldDefns).lookup c).isNone) ≠ []) :
    pull layer job (some d) db =
      ⟨.error ("The source for layer \"" ++ job.layerName ++
         "\" is missing the following fields required by the primary key: " ++
         joinStr (pk.filter (fun c =>
           ((collectOgrFields d.layer.fieldDefns).lookup c).isNone)) ", "),
       (if job.filter = "" then [Event.resetReading]
        else [Event.resetReading, Event.setAttributeFilter job.filter]) ++
       [Event.beginTxn,
        Event.createTempTable layer.target_table_schema layer.target_table_name
          ("batyr_" ++ job.id),
        Event.getTableFields layer.target_table_schema layer.target_table_name],
       []⟩ := by
  rw [pull_toTransaction layer job d db hfound hfil hgeom hdb,
    pullInTransaction_missing layer job d.layer
      (collectOgrFields d.layer.fieldDefns) db pk upd g ins hpart hpk hmiss]

/-- Witness for C3 (amended): the concrete missing-id scenario fails
with the message naming id, with exactly the transaction begin,
scratch-table creation and introspection on the trace. -/
theorem claim_C3_missing_pk_witness :
    pull demoLayer demoJob (some ⟨true, c3LayerModel⟩) demoDb =
      ⟨.error "The source for layer \"roads\" is missing the following fields required by the primary key: id",
       [Event.resetReading] ++
       [Event.beginTxn, Event.createTempTable "public" "roads" "batyr_j1",
        Event.getTableFields "public" "roads"],
       []⟩ := by
  have h := claim_C3_missing_pk demoLayer demoJob ⟨true, c3LayerModel⟩ demoDb
    ["id"] ["geom", "name"] "geom" ["geom", "name"]
    (by decide) (Or.inl (by decide)) (by decide) (by decide) (by decide)
    (by decide) (by decide)
  simpa using h

/-- Counterexample for C4: the rendering performed by
`std::to_string(double)` maps the double `2 ^ (-24)` and the double 0
to the same string `"0.000000"`, so distinct double values are not
kept distinct: precision sufficient for a double is not preserved. -/
theorem claim_C4_counterexample :
    cppToString6 (1/16777216) = "0.000000"
    ∧ cppToString6 0 = "0.000000"
    ∧ ((1:Rat)/16777216) ≠ 0 := by
  refine ⟨?_, ?_, by norm_num⟩
  · rw [cppToString6_eval (1/16777216) 0 (by norm_num)
      (by norm_num [roundHalfEven])]
    decide
  · rw [cppToString6_eval 0 0 (by norm_num) (by norm_num [roundHalfEven])]
    decide

/-- Claim C4 (amended): a REAL source field is rendered with
`std::to_string`, i.e. fixed-point notation with exactly six
fractional digits of the value; the rendering depends only on the
value rounded to six decimals, so it does not preserve full double
precision. -/
theorem claim_C4_real_rendering (og : List (String × OgrField))
    (fields : List TableField) (c : String) (f : OgrFeature) (n : Nat)
    (q q' : Rat)
    (hng : (getTableField fields c).pgTypeName ≠ "geometry")
    (hty : (getOgrField og c).type = .OFTReal) :
    featureValues og fields f n [c] =
      .ok [cppToString6 (f.fieldReal (getOgrField og c).index)]
    ∧ (0 ≤ q → 0 ≤ q' →
        roundHalfEven (q * 1000000) = roundHalfEven (q' * 1000000) →
        cppToString6 q = cppToString6 q') := by
  constructor
  · simp [featureValues, hng, hty]
  · intro hq hq' hr
    rw [cppToString6_eval q (roundHalfEven (q * 1000000)) (not_lt.mpr hq) rfl,
      cppToString6_eval q' (roundHalfEven (q' * 1000000)) (not_lt.mpr hq') rfl,
      hr]

/-- Witness for C4 (amended): the REAL field holding `2 ^ (-24)` is
streamed through `cppToString6`, and that rendering coincides with
the rendering of 0. -/
theorem claim_C4_real_rendering_witness :
    featureValues c4Og c4Fields c4Feature 0 ["weight"] =
      .ok [cppToString6 ((1:Rat)/16777216)]
    ∧ cppToString6 ((1:Rat)/16777216) = cppToString6 0 := by
  have h := claim_C4_real_rendering c4Og c4Fields "weight" c4Feature 0
    (1/16777216) 0 (by decide) (by decide)
  exact ⟨h.1, h.2 (by norm_num) (by norm_num) (by norm_num [roundHalfEven])⟩

/-- Claim C7: a non-empty filter rejected by the driver fails the job
with a message embedding the driver's last error text (when the
driver provides one) and the exact filter string; with an empty
filter no attribute filter is ever applied. -/
theorem claim_C7_attribute_filter (layer : Layer) (job : JobInput)
    (d : DatasetModel) (db : DbModel) (lastErr : Option String) :
    (d.layerFound = true → job.filter ≠ "" →
      d.layer.filterError = some lastErr →
      pull layer job (some d) db =
        ⟨.error ("The given filter for layer \"" ++ layer.name ++
           "\" is invalid" ++
           (match lastErr with
            | some e => ": " ++ e
            | none => ".") ++
           " The applied filter was [ " ++ job.filter ++ " ]"),
         [Event.resetReading, Event.setAttributeFilter job.filter], []⟩)
    ∧ (job.filter = "" → ∀ (ds : Option DatasetModel) (e : Event),
        e ∈ (pull layer job ds db).events → e.isSetFilter = false) := by
  constructor
  · intro hfound hf hferr
    simp [pull, hfound, hf, hferr, filterErrorMessage]
  · intro hf ds e he
    exact pull_no_filter_when_empty layer job ds db hf e he

/-- Witness for C7: the rejected filter "nope =" fails the job with
the message embedding both the driver text and the filter, and the
demonstration run with an empty filter never applies one. -/
theorem claim_C7_attribute_filter_witness :
    pull demoLayer c7Job (some ⟨true, c7LayerModel⟩) demoDb =
      ⟨.error "The given filter for layer \"roads\" is invalid: syntax error The applied filter was [ nope = ]",
       [Event.resetReading, Event.setAttributeFilter "nope ="], []⟩
    ∧ ∀ e ∈ (pull demoLayer demoJob (some demoDataset) demoDb).events,
        e.isSetFilter = false := by
  have h := claim_C7_attribute_filter demoLayer c7Job ⟨true, c7LayerModel⟩
    demoDb (some "syntax error")
  have h2 := claim_C7_attribute_filter demoLayer demoJob demoDataset demoDb none
  exact ⟨h.1 (by decide) (by decide) (by decide),
    fun e he => h2.2 rfl (some demoDataset) e he⟩

/-- Claim C9: with an empty update-column list the pull still builds
the UPDATE statement, whose SET clause is empty (the text degenerates
to " set  from ") and whose row-difference condition is the empty
parenthesised disjunction "()" — not valid SQL — and executes it
against the database. -/
theorem claim_C9_empty_update_columns (schema table temp : String)
    (pk : List String) (layer : Layer) (job : JobInput) (d : DatasetModel)
    (db : DbModel) (g : String) (ins : List String) (sevs : List Event)
    (n : Nat) :
    (buildUpdateStmt schema table temp pk [] =
      "update \"" ++ schema ++ "\".\"" ++ table ++ "\" " ++ " set " ++
      " from \"" ++ temp ++ "\"" ++ " where (" ++
      joinStr (pk.map (fun c =>
        "\"" ++ table ++ "\".\"" ++ c ++ "\" is not distinct from \"" ++
        temp ++ "\".\"" ++ c ++ "\"")) " and " ++ ") and ()")
    ∧ (d.layerFound = true → (job.filter = "" ∨ d.layer.filterError = none) →
       d.layer.geomFieldCount = 1 → db.canBegin = true →
       partitionFields job.layerName (collectOgrFields d.layer.fieldDefns)
         db.tableFields = .ok (pk, [], g, ins) →
       pk ≠ [] →
       pk.filter (fun c =>
         ((collectOgrFields d.layer.fieldDefns).lookup c).isNone) = [] →
       streamFeatures (collectOgrFields d.layer.fieldDefns) db.tableFields ins
         ("batyr_insert" ++ job.id) 0 d.layer.features = (sevs, n, none) →
       Event.exec (buildUpdateStmt layer.target_table_schema
         layer.target_table_name ("batyr_" ++ job.id) pk []) ∈
         (pull layer job (some d) db).events) := by
  constructor
  · have hfold : (") and (" : String) ++ ")" = ") and ()" := by decide
    simp only [buildUpdateStmt, joinStr, List.map_nil]
    rw [show (", ".intercalate ([] : List String)) = "" from rfl,
      show (" or ".intercalate ([] : List String)) = "" from rfl]
    simp only [String.append_empty]
    rw [String.append_assoc _ ") and (" ")", hfold]
  · intro hfound hfil hgeom hdb hpart hpk hmiss hstream
    rw [pull_toTransaction layer job d db hfound hfil hgeom hdb,
      pullInTransaction_success layer job d.layer
        (collectOgrFields d.layer.fieldDefns) db pk [] g ins sevs n
        hpart hpk hmiss hstream]
    simp

/-- Witness for C9: the all-primary-key table produces the degenerate
UPDATE text and the run executes it. -/
theorem claim_C9_empty_update_columns_witness :
    buildUpdateStmt "public" "roads" "batyr_j1" ["id"] [] =
      "update \"public\".\"roads\"  set  from \"batyr_j1\" where (\"roads\".\"id\" is not distinct from \"batyr_j1\".\"id\") and ()"
    ∧ Event.exec (buildUpdateStmt "public" "roads" "batyr_j1" ["id"] []) ∈
        (pull demoLayer demoJob (some ⟨true, c9LayerModel⟩) c9Db).events := by
  have h := claim_C9_empty_update_columns "public" "roads" "batyr_j1" ["id"]
    demoLayer demoJob ⟨true, c9LayerModel⟩ c9Db "" ["id"] [] 0
  refine ⟨by decide, ?_⟩
  exact h.2 (by decide) (Or.inl (by decide)) (by decide) (by decide)
    (by decide) (by decide) (by decide) (by decide)

/-- Claim C10: exactly the exceptions derived from std::runtime_error
set the job to FAILED with the exception text as message; DbError and
WorkerError are swallowed and the loop continues, any other
std::runtime_error is recorded and re-thrown, and a non-runtime_error
exception escapes the loop leaving the job in IN_PROCESS with status
and message untouched. -/
theorem claim_C10_exception_handling (st : JobState) (m : String)
    (e : CppException) :
    runCatch st (.dbError m) =
      ({ st with status := Status.FAILED, message := m }, .continueLoop)
    ∧ runCatch st (.workerError m) =
      ({ st with status := Status.FAILED, message := m }, .continueLoop)
    ∧ runCatch st (.runtimeError m) =
      ({ st with status := Status.FAILED, message := m }, .rethrow)
    ∧ runCatch st .nonRuntime = (st, .escape)
    ∧ (st.status = Status.IN_PROCESS →
        ((runCatch st e).1.status = Status.FAILED ↔ isRuntimeDerived e = true))
    ∧ (isRuntimeDerived e = false →
        (runCatch st e).1 = st ∧ (runCatch st e).2 = .escape) := by
  refine ⟨rfl, rfl, rfl, rfl, ?_, ?_⟩
  · intro hst
    cases e <;>
      simp [runCatch, handlerFor, isA, isRuntimeDerived, excMessage,
        List.find?, hst]
  · intro hre
    cases e with
    | dbError m => simp [isRuntimeDerived] at hre
    | workerError m => simp [isRuntimeDerived] at hre
    | runtimeError m => simp [isRuntimeDerived] at hre
    | nonRuntime => exact ⟨rfl, rfl⟩

/-- Witness for C10: a non-runtime exception leaves the job
IN_PROCESS (not FAILED), while a DbError sets FAILED with the
exception text and continues the loop. -/
theorem claim_C10_exception_handling_witness :
    ¬ ((runCatch jobStateAtPull CppException.nonRuntime).1.status =
        Status.FAILED)
    ∧ runCatch jobStateAtPull (CppException.dbError "connection lost") =
      (⟨Status.FAILED, "connection lost", ⟨0, 0, 0, 0⟩⟩,
       LoopAction.continueLoop) := by
  have h := claim_C10_exception_handling jobStateAtPull "connection lost"
    CppException.nonRuntime
  constructor
  · intro hc
    have hf := (h.2.2.2.2.1 rfl).mp hc
    simp [isRuntimeDerived] at hf
  · exact h.1

end Batyr
